import Mathlib

/-!
Shallow embedding of the four Playwright browser-automation scripts of the
repository (test-indicators.py, capture-console.py, get-console.py,
debug-indicators.py).  Each script is a straight-line Python function that
drives a browser; we embed it as a list of statements over an `Event`
alphabet, transcribed line by line from the source, together with a small
step semantics (`runS` for the non-failing path, `execS` for runs in which
browser operations may fail).
-/

/-- A console-message record, as collected by the scripts' `handle_console`
callbacks: Playwright gives each message a `type` (e.g. "log", "error") and
a `text`. -/
structure ConsoleMsg where
  type : String
  text : String
  deriving DecidableEq

/-- Python's substring test `pat in s`: true when `pat` occurs contiguously
in `s`. -/
def containsSub (s pat : String) : Bool :=
  (List.range (s.toList.length + 1)).any fun i =>
    pat.toList.isPrefixOf (s.toList.drop i)

/-- Python's `str.lower()` restricted to the character-wise map (ASCII
letters are the only ones the scripts compare). -/
def pyLower (s : String) : String := String.mk (s.toList.map Char.toLower)

/-- The primitive operations the scripts perform, in source order.  `sleep`
and `waitForTimeout` durations are in milliseconds.  `printMsg`,
`inputPrompt`, `writeFile` and `sleep` are host-side (non-browser)
operations; everything else talks to the browser. -/
inductive Event
  | launch
  | newContext
  | newPage
  | onConsole
  | goto (url : String)
  | waitForLoadState (state : String)
  | sleep (ms : Nat)
  | click (label : String)
  | screenshot (path : String)
  | waitForTimeout (ms : Nat)
  | locatorAll (sel : String)
  | content
  | evaluate
  | printMsg (s : String)
  | inputPrompt (s : String)
  | writeFile (path : String) (contents : String)
  | closeBrowser
  deriving DecidableEq

/-- The one data-dependent branch in the repository: debug-indicators.py
tests whether the lowercased page HTML contains "rsi". -/
inductive BCond
  | rsiInHtml
  deriving DecidableEq

/-- Line 47 of debug-indicators.py: `if 'rsi' in html.lower():`. -/
def evalCond : BCond → String → Bool
  | BCond.rsiInHtml, html => containsSub (pyLower html) "rsi"

/-- Script statements.  The scripts in this repository only ever use `act`
(a single operation) and, in debug-indicators.py, one `branchPrint` (an
if/else that prints one of two lines).  `tryExcept` and `retryLoop` are the
error-handling constructs Python would offer; they are part of the syntax
so that their absence from every script is a checkable fact. -/
inductive Stmt
  | act (e : Event)
  | branchPrint (c : BCond) (thenMsg elseMsg : String)
  | tryExcept (body handler : List Event)
  | retryLoop (n : Nat) (body : List Event)
  deriving DecidableEq

/-- True for statements that install no error handler and no retry. -/
def stmtPlain : Stmt → Bool
  | Stmt.act _ => true
  | Stmt.branchPrint _ _ _ => true
  | Stmt.tryExcept _ _ => false
  | Stmt.retryLoop _ _ => false

/-- A script is handler-free when it contains no try/except and no retry
loop. -/
def handlerFree : List Stmt → Bool
  | [] => true
  | s :: rest => stmtPlain s && handlerFree rest

/-- A script is straight-line when every statement is a single operation:
no branch, no loop, no handler. -/
def straightLine : List Stmt → Bool
  | [] => true
  | Stmt.act _ :: rest => straightLine rest
  | _ :: _ => false

/-- The event trace of a script on the non-failing path;  `html` is the
page content retrieved by `page.content()`, which feeds the one branch. -/
def runS (html : String) : List Stmt → List Event
  | [] => []
  | Stmt.act e :: rest => e :: runS html rest
  | Stmt.branchPrint c t f :: rest =>
      Event.printMsg (if evalCond c html then t else f) :: runS html rest
  | Stmt.tryExcept body _ :: rest => body ++ runS html rest
  | Stmt.retryLoop _ body :: rest => body ++ runS html rest

/-- Execute a plain event list under a failure oracle `o` (`o e = true`
means `e` succeeds).  The first failing event aborts the run. -/
def execE (o : Event → Bool) : List Event → Except Event (List Event)
  | [] => Except.ok []
  | e :: rest =>
    if o e then
      match execE o rest with
      | Except.ok es => Except.ok (e :: es)
      | Except.error x => Except.error x
    else Except.error e

/-- Retry a body up to `n` additional times; used only by `Stmt.retryLoop`,
which no script of this repository contains. -/
def retryE (o : Event → Bool) : Nat → List Event → Except Event (List Event)
  | 0, body => execE o body
  | Nat.succ n, body =>
    match execE o body with
    | Except.ok es => Except.ok es
    | Except.error _ => retryE o n body

/-- Execute a script under a failure oracle.  `tryExcept` would catch a
failure of its body and run the handler instead; `retryLoop` would retry.
Since every script is handler-free, on these scripts `execS` agrees with
`execE` on the script's trace (proved below). -/
def execS (html : String) (o : Event → Bool) : List Stmt → Except Event (List Event)
  | [] => Except.ok []
  | Stmt.act e :: rest =>
    if o e then
      match execS html o rest with
      | Except.ok es => Except.ok (e :: es)
      | Except.error x => Except.error x
    else Except.error e
  | Stmt.branchPrint c t f :: rest =>
    let e := Event.printMsg (if evalCond c html then t else f)
    if o e then
      match execS html o rest with
      | Except.ok es => Except.ok (e :: es)
      | Except.error x => Except.error x
    else Except.error e
  | Stmt.tryExcept body hnd :: rest =>
    match execE o body with
    | Except.ok es =>
      match execS html o rest with
      | Except.ok es2 => Except.ok (es ++ es2)
      | Except.error x => Except.error x
    | Except.error _ =>
      match execE o hnd with
      | Except.ok hs =>
        match execS html o rest with
        | Except.ok es2 => Except.ok (hs ++ es2)
        | Except.error x => Except.error x
      | Except.error x => Except.error x
  | Stmt.retryLoop n body :: rest =>
    match retryE o n body with
    | Except.ok es =>
      match execS html o rest with
      | Except.ok es2 => Except.ok (es ++ es2)
      | Except.error x => Except.error x
    | Except.error x => Except.error x

/-- The hardcoded local URL all four scripts navigate to. -/
def tokenPageUrl : String := "http://localhost:3005/token/token-7"

/-- test-indicators.py, function `test_indicators` (lines 8-76), transcribed
statement by statement. -/
def testIndicatorsScript : List Stmt := [
  Stmt.act Event.launch,
  Stmt.act Event.newPage,
  Stmt.act (Event.printMsg "Navigating to token page..."),
  Stmt.act (Event.goto tokenPageUrl),
  Stmt.act (Event.waitForLoadState "networkidle"),
  Stmt.act (Event.sleep 2000),
  Stmt.act (Event.screenshot "/tmp/01-before-indicators.png"),
  Stmt.act (Event.printMsg "✓ Took screenshot before enabling indicators"),
  Stmt.act (Event.printMsg "\nLooking for Indicators button..."),
  Stmt.act (Event.click "Indicators"),
  Stmt.act (Event.printMsg "✓ Clicked Indicators button"),
  Stmt.act (Event.sleep 500),
  Stmt.act (Event.printMsg "\nClicking RSI button..."),
  Stmt.act (Event.click "RSI"),
  Stmt.act (Event.printMsg "✓ Clicked RSI button"),
  Stmt.act (Event.sleep 1000),
  Stmt.act (Event.screenshot "/tmp/02-after-rsi.png"),
  Stmt.act (Event.printMsg "✓ Took screenshot after enabling RSI"),
  Stmt.act (Event.printMsg "\nClicking MACD button..."),
  Stmt.act (Event.click "MACD"),
  Stmt.act (Event.printMsg "✓ Clicked MACD button"),
  Stmt.act (Event.sleep 1000),
  Stmt.act (Event.screenshot "/tmp/03-after-macd.png"),
  Stmt.act (Event.printMsg "✓ Took screenshot after enabling MACD"),
  Stmt.act (Event.printMsg "\nClicking Stoch RSI button..."),
  Stmt.act (Event.click "Stoch RSI"),
  Stmt.act (Event.printMsg "✓ Clicked Stoch RSI button"),
  Stmt.act (Event.sleep 1000),
  Stmt.act (Event.screenshot "/tmp/04-all-indicators.png"),
  Stmt.act (Event.printMsg "✓ Took screenshot with all indicators enabled"),
  Stmt.act (Event.printMsg "\nChecking console logs..."),
  Stmt.act (Event.waitForTimeout 1000),
  Stmt.act Event.closeBrowser,
  Stmt.act (Event.printMsg "\n=== Test Complete ==="),
  Stmt.act (Event.printMsg "Screenshots saved:"),
  Stmt.act (Event.printMsg "  /tmp/01-before-indicators.png"),
  Stmt.act (Event.printMsg "  /tmp/02-after-rsi.png"),
  Stmt.act (Event.printMsg "  /tmp/03-after-macd.png"),
  Stmt.act (Event.printMsg "  /tmp/04-all-indicators.png")]

/-- The trace of test-indicators.py (no branch, so the html argument of
`runS` is irrelevant). -/
def testIndicatorsTrace : List Event := runS "" testIndicatorsScript

/-- capture-console.py, function `capture_console` (lines 8-39).  Its
console handler is pure (embedded below as
`CaptureConsole.handle_console`); registering it is the `onConsole`
event. -/
def captureConsoleScript : List Stmt := [
  Stmt.act Event.launch,
  Stmt.act Event.newContext,
  Stmt.act Event.newPage,
  Stmt.act Event.onConsole,
  Stmt.act (Event.printMsg "Navigating to token page..."),
  Stmt.act (Event.goto tokenPageUrl),
  Stmt.act (Event.waitForLoadState "networkidle"),
  Stmt.act (Event.sleep 2000),
  Stmt.act (Event.printMsg "\nClicking Indicators button..."),
  Stmt.act (Event.click "Indicators"),
  Stmt.act (Event.sleep 500),
  Stmt.act (Event.printMsg "Clicking RSI button..."),
  Stmt.act (Event.click "RSI"),
  Stmt.act (Event.sleep 2000),
  Stmt.act (Event.printMsg "\n=== Check console output above ==="),
  Stmt.act (Event.inputPrompt "Press Enter to close browser..."),
  Stmt.act Event.closeBrowser]

/-- The trace of capture-console.py. -/
def captureConsoleTrace : List Event := runS "" captureConsoleScript

namespace CaptureConsole

/-- capture-console.py lines 13-15: the console callback prints the message
iff its type is "log" and its text contains "CandleChart layout:"; it
stores nothing, so its whole effect is an optional printed line. -/
def handle_console (m : ConsoleMsg) : Option String :=
  if m.type == "log" && containsSub m.text "CandleChart layout:" then
    some ("\n🔍 CONSOLE LOG: " ++ m.text)
  else none

end CaptureConsole

namespace GetConsole

/-- get-console.py lines 14-18: the console callback appends the (type,
text) record to `console_messages`. -/
def handle_console (msgs : List ConsoleMsg) (m : ConsoleMsg) : List ConsoleMsg :=
  msgs ++ [m]

/-- The `console_messages` list after all arrived messages have been fed to
the callback, in arrival order. -/
def console_messages (arrivals : List ConsoleMsg) : List ConsoleMsg :=
  arrivals.foldl handle_console []

/-- get-console.py lines 42-44: the content written to
/tmp/console-logs.txt, one "type: text" line per record. -/
def logFileContent (msgs : List ConsoleMsg) : String :=
  String.join (msgs.map fun m => m.type ++ ": " ++ m.text ++ "\n")

/-- get-console.py lines 37-39: the texts printed to the terminal are those
of the records whose text contains "CandleChart layout:". -/
def layoutTexts (msgs : List ConsoleMsg) : List String :=
  (msgs.filter fun m => containsSub m.text "CandleChart layout:").map ConsoleMsg.text

/-- get-console.py lines 9-36, the statements before the printing loop. -/
def scriptHead : List Stmt := [
  Stmt.act Event.launch,
  Stmt.act Event.newPage,
  Stmt.act Event.onConsole,
  Stmt.act (Event.printMsg "Navigating..."),
  Stmt.act (Event.goto tokenPageUrl),
  Stmt.act (Event.waitForLoadState "networkidle"),
  Stmt.act (Event.sleep 2000),
  Stmt.act (Event.printMsg "Clicking RSI..."),
  Stmt.act (Event.click "Indicators"),
  Stmt.act (Event.sleep 500),
  Stmt.act (Event.click "RSI"),
  Stmt.act (Event.sleep 2000),
  Stmt.act (Event.printMsg "\n=== CONSOLE LOGS (CandleChart layout) ===")]

/-- get-console.py lines 42-50, the statements after the printing loop. -/
def scriptTail (msgs : List ConsoleMsg) : List Stmt := [
  Stmt.act (Event.writeFile "/tmp/console-logs.txt" (logFileContent msgs)),
  Stmt.act (Event.printMsg "\nLogs saved to /tmp/console-logs.txt"),
  Stmt.act (Event.printMsg "Close browser to exit..."),
  Stmt.act (Event.inputPrompt "Press Enter..."),
  Stmt.act Event.closeBrowser]

/-- get-console.py, function `get_console_logs` (lines 7-50), parametrised
by the console messages that arrive during the run: head, then one print
per matching record, then file write and shutdown. -/
def script (arrivals : List ConsoleMsg) : List Stmt :=
  scriptHead
    ++ (layoutTexts (console_messages arrivals)).map (fun t => Stmt.act (Event.printMsg t))
    ++ scriptTail (console_messages arrivals)

end GetConsole

/-- The trace of get-console.py for a given arrival sequence. -/
def getConsoleTrace (arrivals : List ConsoleMsg) : List Event :=
  runS "" (GetConsole.script arrivals)

namespace DebugIndicators

/-- debug-indicators.py line 48: the then-line of the rsi branch. -/
def foundLine : String := "✓ \x27rsi\x27 found in page HTML"

/-- debug-indicators.py line 50: the else-line of the rsi branch. -/
def notFoundLine : String := "✗ \x27rsi\x27 NOT found in page HTML"

/-- debug-indicators.py, function `debug_indicators` (lines 8-86).  The
`.all()` locator calls return element lists whose lengths (`nRsi`,
`nChart`, `nWrap`, `nResp`) are runtime data, as is the page HTML read by
`page.content()` (resolved by `runS`'s html argument). -/
def script (nRsi nChart nWrap nResp : Nat) : List Stmt := [
  Stmt.act Event.launch,
  Stmt.act Event.newPage,
  Stmt.act (Event.printMsg "Navigating to token page..."),
  Stmt.act (Event.goto tokenPageUrl),
  Stmt.act (Event.waitForLoadState "networkidle"),
  Stmt.act (Event.sleep 2000),
  Stmt.act (Event.printMsg "Clicking Indicators button..."),
  Stmt.act (Event.click "Indicators"),
  Stmt.act (Event.sleep 500),
  Stmt.act (Event.printMsg "Clicking RSI button..."),
  Stmt.act (Event.click "RSI"),
  Stmt.act (Event.sleep 1000),
  Stmt.act (Event.printMsg "\n=== Checking DOM for RSI subchart ==="),
  Stmt.act (Event.locatorAll "text=RSI"),
  Stmt.act (Event.printMsg ("Found " ++ toString nRsi ++ " elements with \x27RSI\x27 text")),
  Stmt.act (Event.locatorAll "[class*=\"chart\"]"),
  Stmt.act (Event.printMsg ("Found " ++ toString nChart ++ " chart-related elements")),
  Stmt.act (Event.locatorAll ".recharts-wrapper"),
  Stmt.act (Event.printMsg ("Found " ++ toString nWrap ++ " recharts-wrapper elements")),
  Stmt.act Event.content,
  Stmt.branchPrint BCond.rsiInHtml foundLine notFoundLine,
  Stmt.act (Event.locatorAll ".recharts-responsive-container"),
  Stmt.act (Event.printMsg ("Found " ++ toString nResp ++ " ResponsiveContainer elements")),
  Stmt.act (Event.screenshot "/tmp/chart-bottom-zoom.png"),
  Stmt.act (Event.printMsg "\n=== Checking Console ==="),
  Stmt.act Event.evaluate,
  Stmt.act (Event.sleep 1000),
  Stmt.act Event.closeBrowser,
  Stmt.act (Event.printMsg "\n=== Debug Complete ==="),
  Stmt.act (Event.printMsg "Screenshot saved: /tmp/chart-bottom-zoom.png")]

end DebugIndicators

/-- The trace of debug-indicators.py given the runtime element counts and
the page HTML. -/
def debugIndicatorsTrace (nRsi nChart nWrap nResp : Nat) (html : String) : List Event :=
  runS html (DebugIndicators.script nRsi nChart nWrap nResp)

/-- debug-indicators.py lines 47-50 as a value: the line the branch
prints. -/
def rsiCheckLine (html : String) : String :=
  if evalCond BCond.rsiInHtml html then DebugIndicators.foundLine
  else DebugIndicators.notFoundLine

/-- Events that talk to the browser-automation library (as opposed to
host-side printing, reading stdin, writing a file, or `time.sleep`). -/
def isBrowserOp : Event → Bool
  | Event.printMsg _ => false
  | Event.inputPrompt _ => false
  | Event.writeFile _ _ => false
  | Event.sleep _ => false
  | _ => true

/-- The subsequence of browser operations of a trace. -/
def browserOps (tr : List Event) : List Event := tr.filter isBrowserOp

/-- True exactly for the blocking `input()` prompt. -/
def isInputEvent : Event → Bool
  | Event.inputPrompt _ => true
  | _ => false

/-- The filesystem path an event writes, if any: a screenshot target or an
opened output file. -/
def outputPathOf : Event → Option String
  | Event.screenshot p => some p
  | Event.writeFile p _ => some p
  | _ => none

/-- The filesystem paths a trace writes, in order. -/
def outputPaths (tr : List Event) : List String := tr.filterMap outputPathOf

/-- Keep an event when it is a navigation, a click or a screenshot. -/
def actKeep : Event → Option Event
  | Event.goto u => some (Event.goto u)
  | Event.click l => some (Event.click l)
  | Event.screenshot p => some (Event.screenshot p)
  | _ => none

/-- The subsequence of navigations, clicks and screenshots of a trace. -/
def actProj (tr : List Event) : List Event := tr.filterMap actKeep

/-- Classification of trace events for the synchronization analysis:
navigations, clicks, captures (screenshot / DOM reads), fixed-duration
pauses (`time.sleep`, `wait_for_timeout`), and the load-state completion
wait. -/
inductive SyncTag
  | navAct
  | clickAct
  | capture
  | fixedPause
  | loadStateWait
  deriving DecidableEq

/-- Map each event to its synchronization role, if any. -/
def classify : Event → Option SyncTag
  | Event.goto _ => some SyncTag.navAct
  | Event.click _ => some SyncTag.clickAct
  | Event.screenshot _ => some SyncTag.capture
  | Event.locatorAll _ => some SyncTag.capture
  | Event.content => some SyncTag.capture
  | Event.evaluate => some SyncTag.capture
  | Event.sleep _ => some SyncTag.fixedPause
  | Event.waitForTimeout _ => some SyncTag.fixedPause
  | Event.waitForLoadState _ => some SyncTag.loadStateWait
  | _ => none

/-- The synchronization skeleton of a trace. -/
def syncProj (tr : List Event) : List SyncTag := tr.filterMap classify

/-- UI action: a navigation or a click. -/
def isUA : SyncTag → Bool
  | SyncTag.navAct => true
  | SyncTag.clickAct => true
  | _ => false

/-- A capture or a UI action. -/
def isCapOrUA : SyncTag → Bool
  | SyncTag.navAct => true
  | SyncTag.clickAct => true
  | SyncTag.capture => true
  | _ => false

/-- A wait: a fixed pause or the load-state wait. -/
def isWaitTag : SyncTag → Bool
  | SyncTag.fixedPause => true
  | SyncTag.loadStateWait => true
  | _ => false

/-- `tagD l i` reads position `i` of the skeleton (out-of-range positions
never arise for the indices we quantify over). -/
def tagD (l : List SyncTag) (i : Nat) : SyncTag := l.getD i SyncTag.capture

/-- Some UI action occurs before position `j` with no capture or UI action
strictly between it and `j`. -/
def uaBefore (l : List SyncTag) (j : Nat) : Bool :=
  (List.range j).any fun i =>
    isUA (tagD l i) &&
      ((List.range (j - i - 1)).all fun d => !isCapOrUA (tagD l (i + 1 + d)))

/-- Some capture or UI action occurs after position `j`. -/
def capAfter (l : List SyncTag) (j : Nat) : Bool :=
  (List.range (l.length - j - 1)).any fun d => isCapOrUA (tagD l (j + 1 + d))

/-- Position `j` lies between a UI action and the next capture or
action. -/
def inWindow (l : List SyncTag) (j : Nat) : Bool := uaBefore l j && capAfter l j

/-- The claim-C1 property of a synchronization skeleton: every wait lying
between a UI action and the next capture or action is a fixed-duration
pause. -/
def c1holds (l : List SyncTag) : Bool :=
  (List.range l.length).all fun j =>
    !(isWaitTag (tagD l j) && inWindow l j) || (tagD l j == SyncTag.fixedPause)

/-- C1 as stated, for one script trace. -/
def fixedPauseSyncOnly (tr : List Event) : Prop := c1holds (syncProj tr) = true

/-- The amended C1 property: every wait lying between a UI action and the
next capture or action is a fixed-duration pause, or is the load-state
completion wait immediately following a navigation. -/
def c1amendedHolds (l : List SyncTag) : Bool :=
  (List.range l.length).all fun j =>
    !(isWaitTag (tagD l j) && inWindow l j) ||
    (tagD l j == SyncTag.fixedPause) ||
    ((tagD l j == SyncTag.loadStateWait) && decide (0 < j) &&
      (tagD l (j - 1) == SyncTag.navAct))

/-- The `__main__` entry of test-indicators.py: the source reads neither
`sys.argv` nor the environment, so the script it runs is the same for
every invocation. -/
def test_indicators_entry (_argv : List String) (_osEnv : List (String × String)) :
    List Stmt := testIndicatorsScript

/-- The `__main__` entry of capture-console.py (reads no argv, no
environment). -/
def capture_console_entry (_argv : List String) (_osEnv : List (String × String)) :
    List Stmt := captureConsoleScript

/-- The `__main__` entry of get-console.py (reads no argv, no environment;
the console arrivals are runtime data, not input configuration). -/
def get_console_entry (_argv : List String) (_osEnv : List (String × String))
    (arrivals : List ConsoleMsg) : List Stmt := GetConsole.script arrivals

/-- The `__main__` entry of debug-indicators.py (reads no argv, no
environment). -/
def debug_indicators_entry (_argv : List String) (_osEnv : List (String × String))
    (nRsi nChart nWrap nResp : Nat) : List Stmt :=
  DebugIndicators.script nRsi nChart nWrap nResp

/-- A failure oracle under which exactly the click on the "Indicators"
button fails (the element is missing). -/
def failIndicatorsClick (e : Event) : Bool := !(e == Event.click "Indicators")

/-- The events of get-console.py before its printing loop. -/
def gcHeadEvents : List Event := [
  Event.launch, Event.newPage, Event.onConsole,
  Event.printMsg "Navigating...", Event.goto tokenPageUrl,
  Event.waitForLoadState "networkidle", Event.sleep 2000,
  Event.printMsg "Clicking RSI...", Event.click "Indicators",
  Event.sleep 500, Event.click "RSI", Event.sleep 2000,
  Event.printMsg "\n=== CONSOLE LOGS (CandleChart layout) ==="]

/-- The events of get-console.py after its printing loop. -/
def gcTailEvents (msgs : List ConsoleMsg) : List Event := [
  Event.writeFile "/tmp/console-logs.txt" (GetConsole.logFileContent msgs),
  Event.printMsg "\nLogs saved to /tmp/console-logs.txt",
  Event.printMsg "Close browser to exit...",
  Event.inputPrompt "Press Enter...",
  Event.closeBrowser]

theorem runS_append (html : String) (a b : List Stmt) :
    runS html (a ++ b) = runS html a ++ runS html b := by
  induction a with
  | nil => rfl
  | cons s rest ih =>
    cases s <;> simp [runS, ih]

theorem runS_actPrint_map (html : String) (l : List String) :
    runS html (l.map fun t => Stmt.act (Event.printMsg t)) = l.map Event.printMsg := by
  induction l with
  | nil => rfl
  | cons t rest ih => simp [runS, ih]

theorem foldl_snoc_eq (l init : List ConsoleMsg) :
    l.foldl GetConsole.handle_console init = init ++ l := by
  induction l generalizing init with
  | nil => simp
  | cons m rest ih => simp [List.foldl_cons, GetConsole.handle_console, ih]

theorem console_messages_eq (arrivals : List ConsoleMsg) :
    GetConsole.console_messages arrivals = arrivals := by
  simp [GetConsole.console_messages, foldl_snoc_eq]

theorem getConsoleTrace_eq (ms : List ConsoleMsg) :
    getConsoleTrace ms =
      gcHeadEvents ++ (GetConsole.layoutTexts ms).map Event.printMsg ++ gcTailEvents ms := by
  simp [getConsoleTrace, GetConsole.script, console_messages_eq, runS_append,
    runS_actPrint_map, gcHeadEvents, gcTailEvents, runS]

theorem filterMap_map_none {α β γ : Type} (g : β → Option γ) (f : α → β)
    (hg : ∀ a, g (f a) = none) (l : List α) : (l.map f).filterMap g = [] := by
  induction l with
  | nil => rfl
  | cons a rest ih => simp [List.filterMap_cons, hg, ih]

theorem filter_map_false {α β : Type} (p : β → Bool) (f : α → β)
    (hf : ∀ a, p (f a) = false) (l : List α) : (l.map f).filter p = [] := by
  induction l with
  | nil => rfl
  | cons a rest ih => simp [List.filter_cons, hf, ih]

theorem count_map_zero {α β : Type} [BEq β] (f : α → β) (b : β)
    (hf : ∀ a, (f a == b) = false) (l : List α) : (l.map f).count b = 0 := by
  induction l with
  | nil => rfl
  | cons a rest ih => simp [List.count_cons, hf, ih]

theorem gc_syncProj (ms : List ConsoleMsg) :
    syncProj (getConsoleTrace ms) = [SyncTag.navAct, SyncTag.loadStateWait,
      SyncTag.fixedPause, SyncTag.clickAct, SyncTag.fixedPause, SyncTag.clickAct,
      SyncTag.fixedPause] := by
  simp [getConsoleTrace_eq, syncProj, List.filterMap_append,
    filterMap_map_none classify Event.printMsg (fun _ => rfl),
    gcHeadEvents, gcTailEvents, List.filterMap_cons, classify]

theorem gc_outputPaths (ms : List ConsoleMsg) :
    outputPaths (getConsoleTrace ms) = ["/tmp/console-logs.txt"] := by
  simp [getConsoleTrace_eq, outputPaths, List.filterMap_append,
    filterMap_map_none outputPathOf Event.printMsg (fun _ => rfl),
    gcHeadEvents, gcTailEvents, List.filterMap_cons, outputPathOf]

theorem gc_browserOps (ms : List ConsoleMsg) :
    browserOps (getConsoleTrace ms) = [Event.launch, Event.newPage, Event.onConsole,
      Event.goto tokenPageUrl, Event.waitForLoadState "networkidle",
      Event.click "Indicators", Event.click "RSI", Event.closeBrowser] := by
  simp [getConsoleTrace_eq, browserOps, List.filter_append,
    filter_map_false isBrowserOp Event.printMsg (fun _ => rfl),
    gcHeadEvents, gcTailEvents, List.filter_cons, isBrowserOp]

theorem handlerFree_append (a b : List Stmt) :
    handlerFree (a ++ b) = (handlerFree a && handlerFree b) := by
  induction a with
  | nil => rfl
  | cons s rest ih => simp [handlerFree, ih, Bool.and_assoc]

theorem handlerFree_actPrint_map (l : List String) :
    handlerFree (l.map fun t => Stmt.act (Event.printMsg t)) = true := by
  induction l with
  | nil => rfl
  | cons t rest ih => simp [handlerFree, stmtPlain, ih]

theorem gc_handlerFree (ms : List ConsoleMsg) :
    handlerFree (GetConsole.script ms) = true := by
  simp [GetConsole.script, handlerFree_append, handlerFree_actPrint_map,
    console_messages_eq]
  constructor <;> rfl

/-- A sublist has at most the count of the whole; applied to `take` this
bounds every prefix. -/
theorem takeCountLeOne {α : Type} [BEq α] (l : List α) (a : α)
    (h : l.count a = 1) (i : Nat) : (l.take i).count a ≤ 1 :=
  h ▸ (l.take_sublist i).count_le a

theorem execE_firstFail (o : Event → Bool) :
    ∀ (l : List Event) (e : Event),
      l.find? (fun x => !o x) = some e → execE o l = Except.error e := by
  intro l
  induction l with
  | nil => intro e h; simp [List.find?] at h
  | cons a rest ih =>
    intro e h
    cases ha : o a with
    | true =>
      simp only [List.find?, ha, Bool.not_true] at h
      simp [execE, ha, ih e h]
    | false =>
      simp only [List.find?, ha, Bool.not_false] at h
      injection h with h
      subst h
      simp [execE, ha]

theorem execS_eq_execE (html : String) (o : Event → Bool) :
    ∀ ss : List Stmt, handlerFree ss = true →
      execS html o ss = execE o (runS html ss) := by
  intro ss
  induction ss with
  | nil => intro _; rfl
  | cons s rest ih =>
    intro h
    cases s with
    | act e =>
      have hr : handlerFree rest = true := by
        simpa [handlerFree, stmtPlain] using h
      simp [execS, runS, execE, ih hr]
    | branchPrint c t f =>
      have hr : handlerFree rest = true := by
        simpa [handlerFree, stmtPlain] using h
      simp [execS, runS, execE, ih hr]
    | tryExcept body hnd =>
      exact absurd h (by simp [handlerFree, stmtPlain])
    | retryLoop n body =>
      exact absurd h (by simp [handlerFree, stmtPlain])

/-- C1 counterexample: the claim "every wait between a UI action and the
next capture or action is a fixed-duration sleep, with no polling and no
completion signals" is false on the code: in test-indicators.py the wait
`page.wait_for_load_state('networkidle')` (line 15) sits between the
navigation (line 14) and the next capture (the screenshot at line 21) and
is a completion-signal wait, not a fixed-duration sleep; the same wait
occurs in all four scripts. -/
theorem claim_C1_counterexample :
    ¬ (fixedPauseSyncOnly testIndicatorsTrace ∧
       fixedPauseSyncOnly captureConsoleTrace ∧
       (∀ ms, fixedPauseSyncOnly (getConsoleTrace ms)) ∧
       (∀ a b c d html, fixedPauseSyncOnly (debugIndicatorsTrace a b c d html))) := by
  intro h
  have h1 : c1holds (syncProj testIndicatorsTrace) = true := h.1
  exact absurd h1 (by decide)

/-- C1 (amended): in every script, every wait between a UI action
(navigation or click) and the next capture or action is a fixed-duration
sleep, except the single `wait_for_load_state('networkidle')` completion
wait immediately following the navigation; there is no polling. -/
theorem claim_C1 :
    c1amendedHolds (syncProj testIndicatorsTrace) = true ∧
    c1amendedHolds (syncProj captureConsoleTrace) = true ∧
    (∀ ms, c1amendedHolds (syncProj (getConsoleTrace ms)) = true) ∧
    (∀ a b c d html,
      c1amendedHolds (syncProj (debugIndicatorsTrace a b c d html)) = true) := by
  refine ⟨by decide, by decide, fun ms => ?_, fun a b c d html => by rfl⟩
  rw [gc_syncProj]; decide

/-- C2: every script is free of retries, fallback branches and error
handlers, and for every failing browser operation the failure propagates
uncaught: whenever some event of the run fails under the oracle, execution
stops with exactly the first failing event as the uncaught error. -/
theorem claim_C2 :
    (handlerFree testIndicatorsScript = true ∧
     handlerFree captureConsoleScript = true ∧
     (∀ ms, handlerFree (GetConsole.script ms) = true) ∧
     (∀ a b c d, handlerFree (DebugIndicators.script a b c d) = true)) ∧
    (∀ o e, testIndicatorsTrace.find? (fun x => !o x) = some e →
      execS "" o testIndicatorsScript = Except.error e) ∧
    (∀ o e, captureConsoleTrace.find? (fun x => !o x) = some e →
      execS "" o captureConsoleScript = Except.error e) ∧
    (∀ ms o e, (getConsoleTrace ms).find? (fun x => !o x) = some e →
      execS "" o (GetConsole.script ms) = Except.error e) ∧
    (∀ a b c d html o e,
      (debugIndicatorsTrace a b c d html).find? (fun x => !o x) = some e →
      execS html o (DebugIndicators.script a b c d) = Except.error e) := by
  refine ⟨⟨by decide, by decide, gc_handlerFree, fun a b c d => by rfl⟩,
    fun o e h => ?_, fun o e h => ?_, fun ms o e h => ?_, fun a b c d html o e h => ?_⟩
  · rw [execS_eq_execE "" o testIndicatorsScript (by decide)]
    exact execE_firstFail o testIndicatorsTrace e h
  · rw [execS_eq_execE "" o captureConsoleScript (by decide)]
    exact execE_firstFail o captureConsoleTrace e h
  · rw [execS_eq_execE "" o (GetConsole.script ms) (gc_handlerFree ms)]
    exact execE_firstFail o (getConsoleTrace ms) e h
  · rw [execS_eq_execE html o (DebugIndicators.script a b c d) (by rfl)]
    exact execE_firstFail o (debugIndicatorsTrace a b c d html) e h

/-- C2 witness: under the oracle that fails exactly the click on the
"Indicators" button, test-indicators.py stops with that click as its
uncaught error. -/
theorem claim_C2_witness :
    testIndicatorsTrace.find? (fun x => !failIndicatorsClick x)
      = some (Event.click "Indicators") ∧
    execS "" failIndicatorsClick testIndicatorsScript
      = Except.error (Event.click "Indicators") :=
  ⟨by decide,
   claim_C2.2.1 failIndicatorsClick (Event.click "Indicators") (by decide)⟩

/-- C3: the output artifacts are at fixed paths independent of any input:
test-indicators.py writes exactly its four screenshots, get-console.py
exactly /tmp/console-logs.txt, debug-indicators.py exactly
/tmp/chart-bottom-zoom.png, and capture-console.py writes nothing. -/
theorem claim_C3 :
    outputPaths testIndicatorsTrace = ["/tmp/01-before-indicators.png",
      "/tmp/02-after-rsi.png", "/tmp/03-after-macd.png",
      "/tmp/04-all-indicators.png"] ∧
    (∀ ms, outputPaths (getConsoleTrace ms) = ["/tmp/console-logs.txt"]) ∧
    (∀ a b c d html, outputPaths (debugIndicatorsTrace a b c d html)
      = ["/tmp/chart-bottom-zoom.png"]) ∧
    outputPaths captureConsoleTrace = [] :=
  ⟨by decide, gc_outputPaths, fun a b c d html => by rfl, by decide⟩

/-- C4: get-console.py collects console messages as (type, text) records in
arrival order; the file receives every collected record in that order, one
"type: text" line per record, and the terminal printing step outputs
exactly the texts of the records containing "CandleChart layout:". -/
theorem claim_C4 (arrivals : List ConsoleMsg) :
    GetConsole.console_messages arrivals = arrivals ∧
    GetConsole.logFileContent (GetConsole.console_messages arrivals)
      = String.join (arrivals.map fun m => m.type ++ ": " ++ m.text ++ "\n") ∧
    GetConsole.layoutTexts (GetConsole.console_messages arrivals)
      = (arrivals.filter fun m =>
          containsSub m.text "CandleChart layout:").map ConsoleMsg.text ∧
    Event.writeFile "/tmp/console-logs.txt"
        (GetConsole.logFileContent (GetConsole.console_messages arrivals))
      ∈ getConsoleTrace arrivals := by
  refine ⟨console_messages_eq arrivals, by rw [console_messages_eq]; rfl,
    by rw [console_messages_eq]; rfl, ?_⟩
  simp [console_messages_eq, getConsoleTrace_eq, gcTailEvents]

/-- C5: test-indicators.py is a straight-line script: its navigations,
clicks and screenshots occur in exactly the order navigate, screenshot 01,
click Indicators, click RSI, screenshot 02, click MACD, screenshot 03,
click Stoch RSI, screenshot 04, with no branch, loop, retry or handler. -/
theorem claim_C5 :
    actProj testIndicatorsTrace = [Event.goto tokenPageUrl,
      Event.screenshot "/tmp/01-before-indicators.png", Event.click "Indicators",
      Event.click "RSI", Event.screenshot "/tmp/02-after-rsi.png",
      Event.click "MACD", Event.screenshot "/tmp/03-after-macd.png",
      Event.click "Stoch RSI", Event.screenshot "/tmp/04-all-indicators.png"] ∧
    straightLine testIndicatorsScript = true :=
  ⟨by decide, by decide⟩

/-- C6: on the non-failing path every script ends by closing the browser:
`browser.close()` is the last browser operation of all four traces;
capture-console.py and get-console.py block on an `input()` prompt
immediately before the close, while test-indicators.py and
debug-indicators.py never prompt. -/
theorem claim_C6 :
    ((browserOps testIndicatorsTrace).getLast? = some Event.closeBrowser ∧
      testIndicatorsTrace.all (fun e => !isInputEvent e) = true) ∧
    (∀ a b c d html,
      (browserOps (debugIndicatorsTrace a b c d html)).getLast?
        = some Event.closeBrowser ∧
      (debugIndicatorsTrace a b c d html).all (fun e => !isInputEvent e) = true) ∧
    ((browserOps captureConsoleTrace).getLast? = some Event.closeBrowser ∧
      ∃ pre, captureConsoleTrace = pre ++
        [Event.inputPrompt "Press Enter to close browser...", Event.closeBrowser]) ∧
    (∀ ms, (browserOps (getConsoleTrace ms)).getLast? = some Event.closeBrowser ∧
      ∃ pre, getConsoleTrace ms = pre ++
        [Event.inputPrompt "Press Enter...", Event.closeBrowser]) := by
  refine ⟨⟨by decide, by decide⟩, fun a b c d html => ⟨by rfl, by rfl⟩,
    ⟨by decide, ⟨captureConsoleTrace.take 15, by decide⟩⟩, fun ms => ⟨?_, ?_⟩⟩
  · rw [gc_browserOps]; rfl
  · refine ⟨gcHeadEvents ++ (GetConsole.layoutTexts ms).map Event.printMsg ++
      [Event.writeFile "/tmp/console-logs.txt" (GetConsole.logFileContent ms),
       Event.printMsg "\nLogs saved to /tmp/console-logs.txt",
       Event.printMsg "Close browser to exit..."], ?_⟩
    simp [getConsoleTrace_eq, gcTailEvents]

/-- C7: no script reads `sys.argv` or the environment, so any two
invocations differing only in command-line arguments or environment
variables run the same statements, perform the same browser operations and
write the same output paths. -/
theorem claim_C7 (argv1 argv2 : List String)
    (osEnv1 osEnv2 : List (String × String)) :
    test_indicators_entry argv1 osEnv1 = test_indicators_entry argv2 osEnv2 ∧
    capture_console_entry argv1 osEnv1 = capture_console_entry argv2 osEnv2 ∧
    (∀ ms, get_console_entry argv1 osEnv1 ms = get_console_entry argv2 osEnv2 ms) ∧
    (∀ a b c d, debug_indicators_entry argv1 osEnv1 a b c d
      = debug_indicators_entry argv2 osEnv2 a b c d) ∧
    browserOps (runS "" (test_indicators_entry argv1 osEnv1))
      = browserOps (runS "" (test_indicators_entry argv2 osEnv2)) ∧
    outputPaths (runS "" (test_indicators_entry argv1 osEnv1))
      = outputPaths (runS "" (test_indicators_entry argv2 osEnv2)) :=
  ⟨rfl, rfl, fun _ => rfl, fun _ _ _ _ => rfl, rfl, rfl⟩

/-- C8: every run of every script launches exactly one browser and creates
exactly one page, the browser close occurs within the run, and no prefix of
a run has more than one page created (so two pages are never open
simultaneously). -/
theorem claim_C8 :
    (testIndicatorsTrace.count Event.launch = 1 ∧
      testIndicatorsTrace.count Event.newPage = 1 ∧
      Event.closeBrowser ∈ testIndicatorsTrace ∧
      ∀ i, (testIndicatorsTrace.take i).count Event.newPage ≤ 1) ∧
    (captureConsoleTrace.count Event.launch = 1 ∧
      captureConsoleTrace.count Event.newPage = 1 ∧
      Event.closeBrowser ∈ captureConsoleTrace ∧
      ∀ i, (captureConsoleTrace.take i).count Event.newPage ≤ 1) ∧
    (∀ ms, (getConsoleTrace ms).count Event.launch = 1 ∧
      (getConsoleTrace ms).count Event.newPage = 1 ∧
      Event.closeBrowser ∈ getConsoleTrace ms ∧
      ∀ i, ((getConsoleTrace ms).take i).count Event.newPage ≤ 1) ∧
    (∀ a b c d html, (debugIndicatorsTrace a b c d html).count Event.launch = 1 ∧
      (debugIndicatorsTrace a b c d html).count Event.newPage = 1 ∧
      Event.closeBrowser ∈ debugIndicatorsTrace a b c d html ∧
      ∀ i, ((debugIndicatorsTrace a b c d html).take i).count Event.newPage ≤ 1) := by
  have gcCount : ∀ (a : Event), (∀ t, (Event.printMsg t == a) = false) →
      ∀ ms : List ConsoleMsg, (getConsoleTrace ms).count a
        = gcHeadEvents.count a + (gcTailEvents ms).count a := by
    intro a ha ms
    simp [getConsoleTrace_eq, List.count_append,
      count_map_zero Event.printMsg a ha]
  have gcLaunch : ∀ ms : List ConsoleMsg,
      (getConsoleTrace ms).count Event.launch = 1 := by
    intro ms
    rw [gcCount Event.launch (fun t => rfl) ms]; rfl
  have gcPage : ∀ ms : List ConsoleMsg,
      (getConsoleTrace ms).count Event.newPage = 1 := by
    intro ms
    rw [gcCount Event.newPage (fun t => rfl) ms]; rfl
  refine ⟨⟨by decide, by decide, by decide,
      takeCountLeOne testIndicatorsTrace Event.newPage (by decide)⟩,
    ⟨by decide, by decide, by decide,
      takeCountLeOne captureConsoleTrace Event.newPage (by decide)⟩,
    fun ms => ⟨gcLaunch ms, gcPage ms, ?_,
      takeCountLeOne (getConsoleTrace ms) Event.newPage (gcPage ms)⟩,
    fun a b c d html => ⟨by rfl, by rfl, ?_,
      takeCountLeOne (debugIndicatorsTrace a b c d html) Event.newPage (by rfl)⟩⟩
  · simp [getConsoleTrace_eq, gcTailEvents]
  · simp [debugIndicatorsTrace, DebugIndicators.script, runS]

/-- C9: capture-console.py prints a console message iff its type is "log"
and its text contains "CandleChart layout:"; any other message — including
an error-type message whose text contains the pattern — produces nothing
and is never stored. -/
theorem claim_C9 (m : ConsoleMsg) :
    ((CaptureConsole.handle_console m).isSome
      ↔ m.type = "log" ∧ containsSub m.text "CandleChart layout:" = true) ∧
    CaptureConsole.handle_console { type := "error", text := m.text } = none ∧
    (m.type = "log" → containsSub m.text "CandleChart layout:" = true →
      CaptureConsole.handle_console m
        = some ("\n🔍 CONSOLE LOG: " ++ m.text)) := by
  refine ⟨?_, by rfl, fun h1 h2 => ?_⟩
  · unfold CaptureConsole.handle_console
    by_cases h1 : m.type = "log" <;>
      by_cases h2 : containsSub m.text "CandleChart layout:" = true <;>
        simp [h1, h2]
  · simp [CaptureConsole.handle_console, h1, h2]

/-- C9 witness: a log-type message containing "CandleChart layout:" is
printed with its text. -/
theorem claim_C9_witness :
    CaptureConsole.handle_console ⟨"log", "CandleChart layout: h=372"⟩
      = some ("\n🔍 CONSOLE LOG: CandleChart layout: h=372") :=
  (claim_C9 ⟨"log", "CandleChart layout: h=372"⟩).2.2 rfl (by decide)

/-- C10: debug-indicators.py prints the found-line iff the page HTML
lowercased contains "rsi" (so "RSI" and "Rsi" count as found), and
otherwise prints the not-found line; the branch is part of the script. -/
theorem claim_C10 (html : String) :
    (rsiCheckLine html = DebugIndicators.foundLine
      ↔ containsSub (pyLower html) "rsi" = true) ∧
    (rsiCheckLine html = DebugIndicators.notFoundLine
      ↔ containsSub (pyLower html) "rsi" = false) ∧
    rsiCheckLine "<div class=\"RSI-pane\"></div>" = DebugIndicators.foundLine ∧
    rsiCheckLine "Rsi subchart" = DebugIndicators.foundLine ∧
    rsiCheckLine "no indicator here" = DebugIndicators.notFoundLine ∧
    (∀ a b c d, Stmt.branchPrint BCond.rsiInHtml DebugIndicators.foundLine
      DebugIndicators.notFoundLine ∈ DebugIndicators.script a b c d) := by
  refine ⟨?_, ?_, by decide, by decide, by decide, fun a b c d => ?_⟩
  · cases h : containsSub (pyLower html) "rsi" <;>
      simp [rsiCheckLine, evalCond, h, DebugIndicators.foundLine,
        DebugIndicators.notFoundLine]
  · cases h : containsSub (pyLower html) "rsi" <;>
      simp [rsiCheckLine, evalCond, h, DebugIndicators.foundLine,
        DebugIndicators.notFoundLine]
  · simp [DebugIndicators.script]

/-- C10 witness: a page HTML containing "Stoch RSI" yields the found
line. -/
theorem claim_C10_witness :
    rsiCheckLine "Stoch RSI" = DebugIndicators.foundLine :=
  (claim_C10 "Stoch RSI").1.mpr (by decide)
